import Mathlib

/-!
Shallow embedding, in Lean 4, of the weather-popup scripts of this repository:
`planning/weather-popup/weather_fetcher.py` and
`planning/weather-popup/get_current_weather.py`.

JSON values decoded by `response.json()` are modelled by the inductive `Json`
(Python `None`/`bool`/`int`/`float`/`str`/`list`/`dict`); Python floats are
modelled by exact rationals (the concrete values exercised by the scripts are
short decimal literals, where Python's binary-float formatting and exact
decimal formatting agree).  Python exceptions are modelled by `PyErr`, and
fallible code returns `Except PyErr`.  Text printed by the scripts is
collected in an `Output` record (stdout and stderr line lists).
-/

/-- Python exceptions relevant to these scripts, each carrying the part of the
Python message the code can observe. -/
inductive PyErr where
  | keyError (key : String)
  | indexError (msg : String)
  | typeError (msg : String)
  | valueError (msg : String)
  | attributeError (msg : String)
  | unboundLocalError (name : String)
deriving DecidableEq

/-- A JSON document as decoded by Python's `json` module: `null` ↦ `None`,
numbers split into `int` and `float` exactly as Python's decoder does. -/
inductive Json where
  | null
  | bool (b : Bool)
  | int (n : ℤ)
  | float (q : ℚ)
  | str (s : String)
  | arr (elems : List Json)
  | obj (fields : List (String × Json))

/-- Captured process output: stdout lines and stderr lines. -/
structure Output where
  out : List String
  err : List String
deriving DecidableEq

/-- First-match association-list lookup, modelling Python `dict` access
(JSON-decoded dicts have unique string keys). -/
def objFind : List (String × Json) → String → Option Json
  | [], _ => none
  | (k, v) :: rest, key => if k = key then some v else objFind rest key

/-- Python type name of a JSON-decoded value, as it appears in error messages. -/
def typeName : Json → String
  | .null => "NoneType"
  | .bool _ => "bool"
  | .int _ => "int"
  | .float _ => "float"
  | .str _ => "str"
  | .arr _ => "list"
  | .obj _ => "dict"

/-- Python truthiness (`bool(x)`) of a JSON-decoded value. -/
def pyNot (j : Json) : Bool :=
  match j with
  | .null => true
  | .bool b => !b
  | .int n => decide (n = 0)
  | .float q => decide (q.num = 0)
  | .str s => s.isEmpty
  | .arr xs => xs.isEmpty
  | .obj fs => fs.isEmpty

/-- Python `len(x)` on a JSON-decoded value (`TypeError` on unsized values). -/
def pyLen (j : Json) : Except PyErr ℕ :=
  match j with
  | .str s => .ok s.length
  | .arr xs => .ok xs.length
  | .obj fs => .ok fs.length
  | other => .error (.typeError ("object of type \x27" ++ typeName other ++ "\x27 has no len()"))

/-- Python `x[key]` with a string key: `dict` lookup (`KeyError` when missing),
`TypeError` on every other JSON-decoded type. -/
def subscript (j : Json) (key : String) : Except PyErr Json :=
  match j with
  | .obj fields =>
    match objFind fields key with
    | some v => .ok v
    | none => .error (.keyError key)
  | .arr _ => .error (.typeError "list indices must be integers or slices, not str")
  | .str _ => .error (.typeError "string indices must be integers")
  | other => .error (.typeError ("\x27" ++ typeName other ++ "\x27 object is not subscriptable"))

/-- Python `x[i]` with a non-negative integer index: list indexing
(`IndexError` out of range), string indexing, `KeyError` on dicts (integer keys
never occur in JSON-decoded dicts), `TypeError` otherwise. -/
def pyIndex (j : Json) (i : ℕ) : Except PyErr Json :=
  match j with
  | .arr xs =>
    match xs.get? i with
    | some v => .ok v
    | none => .error (.indexError "list index out of range")
  | .str s =>
    match s.toList.get? i with
    | some c => .ok (.str (String.mk [c]))
    | none => .error (.indexError "string index out of range")
  | .obj _ => .error (.keyError (Nat.repr i))
  | other => .error (.typeError ("\x27" ++ typeName other ++ "\x27 object is not subscriptable"))

/-- Python `x.get(key, default)`: defined on dicts; every other JSON-decoded
type has no `get` attribute (`AttributeError`). -/
def dictGet (j : Json) (key : String) (dflt : Json) : Except PyErr Json :=
  match j with
  | .obj fields => .ok ((objFind fields key).getD dflt)
  | other => .error (.attributeError ("\x27" ++ typeName other ++ "\x27 object has no attribute \x27get\x27"))

/-- Numeric value of a digit list (most significant first). -/
def digitsToNat (ds : List Char) : ℕ :=
  ds.foldl (fun a c => 10 * a + (c.toNat - 48)) 0

/-- The rational `sgn * n0 / 10^fk * 10^e`: the value of a decimal literal
with integer-and-fraction digits `n0`, `fk` fractional digits and exponent
`e`, built directly with `mkRat`. -/
def decimalValue (sgn : ℤ) (n0 : ℕ) (fk : ℕ) (e : ℤ) : ℚ :=
  if 0 ≤ e then mkRat (sgn * (n0 : ℤ) * ((10 ^ e.toNat : ℕ) : ℤ)) (10 ^ fk)
  else mkRat (sgn * (n0 : ℤ)) (10 ^ fk * 10 ^ (-e).toNat)

/-- Exponent part of a Python float literal (after the `e`/`E`). -/
def parseExp (cs : List Char) : Option ℤ :=
  match cs with
  | [] => none
  | '+' :: ds => if ds ≠ [] ∧ ds.all Char.isDigit then some (digitsToNat ds : ℤ) else none
  | '-' :: ds => if ds ≠ [] ∧ ds.all Char.isDigit then some (-(digitsToNat ds : ℤ)) else none
  | ds => if ds.all Char.isDigit then some (digitsToNat ds : ℤ) else none

/-- Core of Python `float(string)` on an already-stripped character list:
optional sign, digits with an optional single point, optional exponent.
(The exotic forms `inf`/`nan`/digit underscores never occur in this
repository's data and are not modelled; they would parse to `none` here.) -/
def parseDecimalCore (cs : List Char) : Option ℚ :=
  let signed : ℤ × List Char :=
    match cs with
    | '+' :: r => (1, r)
    | '-' :: r => (-1, r)
    | r => (1, r)
  let sgn := signed.1
  let rest := signed.2
  let ipart := rest.takeWhile Char.isDigit
  let rest2 := rest.dropWhile Char.isDigit
  match rest2 with
  | '.' :: r3 =>
    let fpart := r3.takeWhile Char.isDigit
    let rest4 := r3.dropWhile Char.isDigit
    if ipart = [] ∧ fpart = [] then none
    else
      let n0 := digitsToNat ipart * 10 ^ fpart.length + digitsToNat fpart
      match rest4 with
      | [] => some (decimalValue sgn n0 fpart.length 0)
      | 'e' :: r5 => (parseExp r5).map (decimalValue sgn n0 fpart.length)
      | 'E' :: r5 => (parseExp r5).map (decimalValue sgn n0 fpart.length)
      | _ => none
  | 'e' :: r5 =>
    if ipart = [] then none
    else (parseExp r5).map (decimalValue sgn (digitsToNat ipart) 0)
  | 'E' :: r5 =>
    if ipart = [] then none
    else (parseExp r5).map (decimalValue sgn (digitsToNat ipart) 0)
  | [] => if ipart = [] then none else some (decimalValue sgn (digitsToNat ipart) 0 0)
  | _ => none

/-- Python `float(string)`: surrounding whitespace is stripped, then the
decimal literal is parsed. -/
def parseDecimal (s : String) : Option ℚ :=
  parseDecimalCore (((s.toList.dropWhile Char.isWhitespace).reverse.dropWhile Char.isWhitespace).reverse)

/-- Python `float(x)` on a JSON-decoded value: numbers and bools convert,
strings are parsed (`ValueError` when malformed), everything else is a
`TypeError`. -/
def pyFloat (j : Json) : Except PyErr ℚ :=
  match j with
  | .float q => .ok q
  | .int n => .ok (mkRat n 1)
  | .bool b => .ok (if b then mkRat 1 1 else mkRat 0 1)
  | .str s =>
    match parseDecimal s with
    | some q => .ok q
    | none => .error (.valueError ("could not convert string to float: \x27" ++ s ++ "\x27"))
  | other => .error (.typeError ("float() argument must be a string or a real number, not \x27" ++ typeName other ++ "\x27"))

/-- The exception classes named by `except (KeyError, IndexError, TypeError)`
in `get_current_conditions`. -/
def caught : PyErr → Bool
  | .keyError _ => true
  | .indexError _ => true
  | .typeError _ => true
  | _ => false

/-- Python `str(e)` for the modelled exceptions (a `KeyError` displays the
repr of its key). -/
def pyErrStr : PyErr → String
  | .keyError k => "\x27" ++ k ++ "\x27"
  | .indexError m => m
  | .typeError m => m
  | .valueError m => m
  | .attributeError m => m
  | .unboundLocalError n => "local variable \x27" ++ n ++ "\x27 referenced before assignment"

theorem exbind_ok {α β : Type} (a : α) (g : α → Except PyErr β) :
    (Except.ok a >>= g) = g a := rfl

theorem exbind_err {α β : Type} (e : PyErr) (g : α → Except PyErr β) :
    ((Except.error e : Except PyErr α) >>= g) = Except.error e := rfl

theorem expure_eq {α : Type} (a : α) : (pure a : Except PyErr α) = Except.ok a := rfl

/-- Round the fraction `a / d` (with `d > 0`) to the nearest integer, ties to
even — the rounding used by Python's fixed-point `format` of floats. -/
def rndNEZ (a d : ℤ) : ℤ :=
  let f := Int.ediv a d
  let r2 := 2 * (a - f * d)
  if r2 < d then f
  else if d < r2 then f + 1
  else if f % 2 = 0 then f else f + 1

/-- Left-pad a digit string with zeros to the requested width. -/
def padZeros (s : String) (n : ℕ) : String :=
  String.mk (List.replicate (n - s.length) '0') ++ s

/-- Python `format(x, ".Nf")` on the modelled float `q` (the script only uses
`.0f` and `.1f`; the values it formats are exact short decimals, where
binary-float rounding and exact rational rounding agree).  `q * 10^prec` is
rounded half-to-even, working on numerator and denominator directly. -/
def formatFixed (q : ℚ) (prec : ℕ) : String :=
  let n := rndNEZ (q.num * ((10 ^ prec : ℕ) : ℤ)) (q.den : ℤ)
  let sign := if n < 0 then "-" else ""
  let m := n.natAbs
  if prec = 0 then sign ++ Nat.repr m
  else sign ++ Nat.repr (m / 10 ^ prec) ++ "." ++ padZeros (Nat.repr (m % 10 ^ prec)) prec

/-- Smallest decimal-digit count in the given candidate list that makes
`n / d` an exact decimal fraction. -/
def firstDecK (n d : ℕ) : List ℕ → Option ℕ
  | [] => none
  | k :: ks => if n * 10 ^ k % d = 0 then some k else firstDecK n d ks

/-- Python `str(x)` for a float: shortest decimal digits (always keeping one
fractional digit, as Python does for integral floats).  The floats this
script builds come from short decimal strings, where Python's shortest
round-trip repr is that same decimal.  Rationals with no finite decimal
expansion of at most 17 fractional digits cannot arise from Python floats;
they fall back to a 17-digit fixed rendering. -/
def pyStrNum (q : ℚ) : String :=
  let sign := if q.num < 0 then "-" else ""
  let n : ℕ := q.num.natAbs
  let d : ℕ := q.den
  match firstDecK n d (List.range 18) with
  | some k =>
    let m : ℕ := n * 10 ^ k / d
    if k = 0 then sign ++ Nat.repr m ++ ".0"
    else sign ++ Nat.repr (m / 10 ^ k) ++ "." ++ padZeros (Nat.repr (m % 10 ^ k)) k
  | none => sign ++ formatFixed (if q.num < 0 then -q else q) 17

mutual

/-- Total constructor count of a JSON value; used as recursion fuel (it always
bounds the nesting depth). -/
def jsize : Json → ℕ
  | .null => 1
  | .bool _ => 1
  | .int _ => 1
  | .float _ => 1
  | .str _ => 1
  | .arr xs => 1 + jsizeArr xs
  | .obj fs => 1 + jsizeObj fs

/-- Summed size of the elements of a JSON array. -/
def jsizeArr : List Json → ℕ
  | [] => 0
  | x :: xs => jsize x + jsizeArr xs

/-- Summed size of the values of a JSON object. -/
def jsizeObj : List (String × Json) → ℕ
  | [] => 0
  | (_, v) :: fs => jsize v + jsizeObj fs

end

/-- Fueled Python `repr` of a JSON-decoded value (fuel bounds the nesting
depth; `jsize` always suffices). -/
def pyReprF : ℕ → Json → String
  | 0, _ => ""
  | fuel + 1, j =>
    match j with
    | .null => "None"
    | .bool true => "True"
    | .bool false => "False"
    | .int n => Int.repr n
    | .float q => pyStrNum q
    | .str s => "\x27" ++ s ++ "\x27"
    | .arr xs => "[" ++ String.intercalate ", " (xs.map (fun x => pyReprF fuel x)) ++ "]"
    | .obj fs =>
      "\x7b" ++ String.intercalate ", " (fs.map (fun kv => "\x27" ++ kv.1 ++ "\x27: " ++ pyReprF fuel kv.2)) ++ "\x7d"

/-- Python `repr` of a JSON-decoded value. -/
def pyRepr (j : Json) : String := pyReprF (jsize j) j

/-- Python `str(x)` as used by f-string interpolation: strings verbatim,
containers via `repr`. -/
def pyStr (j : Json) : String :=
  match j with
  | .str s => s
  | .null => "None"
  | .bool true => "True"
  | .bool false => "False"
  | .int n => Int.repr n
  | .float q => pyStrNum q
  | .arr _ => pyRepr j
  | .obj _ => pyRepr j

/-- Remainder of `s` after removing the leading occurrence of `pat`, when
`pat` is a leading segment of `s`. -/
def stripLead : List Char → List Char → Option (List Char)
  | [], s => some s
  | _ :: _, [] => none
  | p :: ps, c :: cs => if p = c then stripLead ps cs else none

/-- Fueled left-to-right non-overlapping replacement (Python `str.replace`);
fuel `s.length` suffices for a non-empty pattern since every step consumes at
least one character. -/
def replaceFuel (pat rep : List Char) : ℕ → List Char → List Char
  | _, [] => []
  | 0, s => s
  | fuel + 1, c :: cs =>
    match stripLead pat (c :: cs) with
    | some rest => rep ++ replaceFuel pat rep fuel rest
    | none => c :: replaceFuel pat rep fuel cs

/-- Python `s.replace(pat, rep)`.  (The scripts only call it with non-empty
patterns; the empty-pattern case is left as the identity.) -/
def pyReplace (s pat rep : String) : String :=
  if pat.toList = [] then s
  else String.mk (replaceFuel pat.toList rep.toList s.toList.length s.toList)

/-- Hex digit character for a value below 16. -/
def hexDigit (n : ℕ) : Char :=
  if n < 10 then Char.ofNat (48 + n) else Char.ofNat (87 + n)

/-- JSON escaping of one character (`ensure_ascii=False`: non-ASCII passes
through unescaped). -/
def jsonEscapeChar (c : Char) : String :=
  if c = '"' then "\\\""
  else if c = '\\' then "\\\\"
  else if c = '\n' then "\\n"
  else if c = '\t' then "\\t"
  else if c = '\r' then "\\r"
  else if c.toNat = 8 then "\\b"
  else if c.toNat = 12 then "\\f"
  else if c.toNat < 32 then "\\u00" ++ String.mk [hexDigit (c.toNat / 16), hexDigit (c.toNat % 16)]
  else String.mk [c]

/-- JSON string literal with quotes and escapes. -/
def jsonQuote (s : String) : String :=
  "\"" ++ String.join (s.toList.map jsonEscapeChar) ++ "\""

/-- Indentation used by `json.dumps(..., indent=2)`. -/
def spaces (n : ℕ) : String := String.mk (List.replicate n ' ')

/-- Fueled `json.dumps(j, ensure_ascii=False, indent=2)` of a JSON-decoded
value nested at indentation level `lvl`. -/
def jsonDumpF : ℕ → ℕ → Json → String
  | 0, _, _ => ""
  | fuel + 1, lvl, j =>
    match j with
    | .null => "null"
    | .bool true => "true"
    | .bool false => "false"
    | .int n => Int.repr n
    | .float q => pyStrNum q
    | .str s => jsonQuote s
    | .arr [] => "[]"
    | .arr xs =>
      "[\n" ++ String.intercalate ",\n" (xs.map (fun x => spaces (2 * (lvl + 1)) ++ jsonDumpF fuel (lvl + 1) x))
        ++ "\n" ++ spaces (2 * lvl) ++ "]"
    | .obj [] => "\x7b\x7d"
    | .obj fs =>
      "\x7b\n" ++ String.intercalate ",\n" (fs.map (fun kv => spaces (2 * (lvl + 1)) ++ jsonQuote kv.1 ++ ": " ++ jsonDumpF fuel (lvl + 1) kv.2))
        ++ "\n" ++ spaces (2 * lvl) ++ "\x7d"

/-- `json.dumps(j, ensure_ascii=False, indent=2)` of a JSON-decoded value at
indentation level `lvl`. -/
def jsonDump (lvl : ℕ) (j : Json) : String := jsonDumpF (jsize j) lvl j

/-- The flat current-conditions record built by `get_current_conditions`
(dict keys in insertion order).  The three `float(...)`-converted entries are
rationals; the other entries keep the JSON value found in the response. -/
structure Conditions where
  temperature : ℚ
  weather : Json
  weather_en : Json
  wind_speed : ℚ
  wind_direction : Json
  precipitation : ℚ
  forecast_time : Json
  location : Json

/-- Outcome of the single `self.session.get(...)` call inside
`WeatherFetcher.get_forecast`: either the request itself raises a
`requests.exceptions.RequestException` (connection error, timeout, ...), or a
response arrives with an HTTP status code and a JSON-decodable body.
(Bodies that fail JSON decoding are not modelled; no claim concerns them.) -/
inductive HttpOutcome where
  | transportError (msg : String)
  | response (status : ℕ) (body : Json)

/-- `WeatherFetcher.get_forecast`, as a function of the outcome of its HTTP
request.  `response.raise_for_status()` raises `HTTPError` for status codes
400–599, which the `except RequestException` block catches; that block prints
three lines to stdout and returns `None`.  The second and third lines render
`N/A` because `bool(response)` is `response.ok`, which is `False` for those
statuses.  When the request itself raised, the local `response` was never
assigned, so the handler's `response.status_code if response else 'N/A'`
raises `UnboundLocalError` (the handler's first print, executed before the
exception, is not tracked).  On success the decoded body is returned. -/
def get_forecast (o : HttpOutcome) : Except PyErr (Option Json × Output) :=
  match o with
  | .transportError _ => .error (.unboundLocalError "response")
  | .response status body =>
    if 400 ≤ status ∧ status < 600 then
      .ok (none,
        ⟨["Error fetching forecast: " ++ Nat.repr status
            ++ (if status < 500 then " Client Error" else " Server Error"),
          "Response status: N/A",
          "Response text: N/A"], []⟩)
    else .ok (some body, ⟨[], []⟩)

/-- The response-shape normalization at the end of
`WeatherFetcher.search_location`, as a function of the decoded JSON `data`:
a dict with a `data` key returns `data['data']` when it is a list and
`[data]` otherwise; any other dict returns `[data]`; a list is returned
as-is; every other shape returns `[]`. -/
def search_location_normalize (data : Json) : List Json :=
  match data with
  | .obj fields =>
    match objFind fields "data" with
    | some (Json.arr xs) => xs
    | some _ => [data]
    | none => [data]
  | .arr xs => xs
  | _ => []

/-- The lookup `forecast['forecast']['tabular']['time']` performed by
`get_current_conditions`. -/
def getTimes (forecast : Json) : Except PyErr Json := do
  let fc ← subscript forecast "forecast"
  let tab ← subscript fc "tabular"
  subscript tab "time"

/-- The body of the `try:` block of `get_current_conditions`, line by line:
the `forecast.tabular.time` navigation, the empty-sequence early `return
None`, the field extractions from the first entry, then the dict literal
(whose `float(...)` conversions and `forecast.get('location', 'Unknown')`
evaluate in dict order). -/
def extractTry (forecast : Json) : Except PyErr (Option Conditions) := do
  let times ← getTimes forecast
  if pyNot times then
    pure none
  else do
    let n ← pyLen times
    if n = 0 then
      pure none
    else do
      let current ← pyIndex times 0
      let tempD ← subscript current "temperature"
      let tempA ← subscript tempD "@attributes"
      let temp ← subscript tempA "value"
      let phenD ← subscript current "phenomen"
      let phenA ← subscript phenD "@attributes"
      let weather ← subscript phenA "et"
      let weatherEn ← dictGet phenA "en" (Json.str "")
      let wsD ← subscript current "windSpeed"
      let wsA ← subscript wsD "@attributes"
      let windSpeed ← subscript wsA "mps"
      let wdD ← subscript current "windDirection"
      let wdA ← subscript wdD "@attributes"
      let windDir ← subscript wdA "name"
      let prD ← subscript current "precipitation"
      let prA ← subscript prD "@attributes"
      let precip ← subscript prA "value"
      let atA ← subscript current "@attributes"
      let timeFrom ← subscript atA "from"
      let tq ← pyFloat temp
      let wsq ← pyFloat windSpeed
      let pq ← pyFloat precip
      let loc ← dictGet forecast "location" (Json.str "Unknown")
      pure (some ⟨tq, weather, weatherEn, wsq, windDir, pq, timeFrom, loc⟩)

/-- `get_current_conditions`, as a function of the HTTP outcome its fetch
encounters: a failed fetch (`None`) or a falsy decoded body returns `None`;
otherwise the `try:` body runs, `except (KeyError, IndexError, TypeError)`
converts those three exceptions into a stderr diagnostic plus `None`, and
every other exception propagates. -/
def get_current_conditions (o : HttpOutcome) : Except PyErr (Option Conditions × Output) :=
  match get_forecast o with
  | .error e => .error e
  | .ok (forecastOpt, op) =>
    match forecastOpt with
    | none => .ok (none, op)
    | some f =>
      if pyNot f then .ok (none, op)
      else
        match extractTry f with
        | .ok conds => .ok (conds, op)
        | .error e =>
          if caught e then
            .ok (none, ⟨op.out, op.err ++ ["Error parsing weather data: " ++ pyErrStr e]⟩)
          else .error e

/-- `format_simple`: placeholder for a falsy argument, otherwise
`f"{temp:.1f}°C • {weather} • Tuul {wind} m/s"`. -/
def format_simple (conditions : Option Conditions) : String :=
  match conditions with
  | none => "Weather data unavailable"
  | some c =>
    formatFixed c.temperature 1 ++ "°C • " ++ pyStr c.weather
      ++ " • Tuul " ++ pyStrNum c.wind_speed ++ " m/s"

/-- `format_minimal`: `"N/A"` for a falsy argument, otherwise
`f"{temp:.0f}° {weather_short}"` where the weather label had
`.replace('pilvisus', 'pilv').replace('Vahelduv', 'Vahel.')` applied.
`.replace` only exists on strings: any other JSON value there raises
`AttributeError`. -/
def format_minimal (conditions : Option Conditions) : Except PyErr String :=
  match conditions with
  | none => .ok "N/A"
  | some c =>
    match c.weather with
    | .str w =>
      .ok (formatFixed c.temperature 0 ++ "° "
        ++ pyReplace (pyReplace w "pilvisus" "pilv") "Vahelduv" "Vahel.")
    | other =>
      .error (.attributeError ("\x27" ++ typeName other ++ "\x27 object has no attribute \x27replace\x27"))

/-- `format_detailed`: placeholder for a falsy argument, otherwise the
six-line block (the f-string's surrounding newlines are removed by
`.strip()`). -/
def format_detailed (conditions : Option Conditions) : String :=
  match conditions with
  | none => "Weather data unavailable"
  | some c =>
    "Location: " ++ pyStr c.location
      ++ "\nTemperature: " ++ formatFixed c.temperature 1 ++ "°C"
      ++ "\nConditions: " ++ pyStr c.weather ++ " (" ++ pyStr c.weather_en ++ ")"
      ++ "\nWind: " ++ formatFixed c.wind_speed 1 ++ " m/s " ++ pyStr c.wind_direction
      ++ "\nPrecipitation: " ++ formatFixed c.precipitation 1 ++ " mm"
      ++ "\nForecast time: " ++ pyStr c.forecast_time

/-- `json.dumps(conditions, ensure_ascii=False, indent=2)` of the conditions
dict (keys in insertion order; the three rational entries render as Python
floats). -/
def jsonDumpsConditions (c : Conditions) : String :=
  "\x7b\n  \"temperature\": " ++ pyStrNum c.temperature
    ++ ",\n  \"weather\": " ++ jsonDump 1 c.weather
    ++ ",\n  \"weather_en\": " ++ jsonDump 1 c.weather_en
    ++ ",\n  \"wind_speed\": " ++ pyStrNum c.wind_speed
    ++ ",\n  \"wind_direction\": " ++ jsonDump 1 c.wind_direction
    ++ ",\n  \"precipitation\": " ++ pyStrNum c.precipitation
    ++ ",\n  \"forecast_time\": " ++ jsonDump 1 c.forecast_time
    ++ ",\n  \"location\": " ++ jsonDump 1 c.location
    ++ "\n\x7d"

/-- The `json` output format of `main` is `json.dumps(conditions, ...)`
applied directly to the extraction result: there is no placeholder, and the
Python value `None` serializes as `null`. -/
def format_json (conditions : Option Conditions) : String :=
  match conditions with
  | none => "null"
  | some c => jsonDumpsConditions c

/-- The `--format` choices of the CLI entry point. -/
inductive OutputFormat where
  | simple
  | minimal
  | detailed
  | json
deriving DecidableEq

/-- Observable result of a `main` run: process exit code plus the stdout and
stderr lines (normal termination exits 0; `sys.exit(1)` exits 1). -/
structure CliResult where
  exitCode : ℕ
  stdout : List String
  stderr : List String
deriving DecidableEq

/-- `main` of `get_current_weather.py`, as a function of the HTTP outcome and
the selected `--format`: a falsy extraction result prints a message to stderr
and exits 1; otherwise the chosen formatter's output is printed to stdout.
Exceptions escaping `get_current_conditions` or a formatter propagate. -/
def runMain (o : HttpOutcome) (fm : OutputFormat) : Except PyErr CliResult :=
  match get_current_conditions o with
  | .error e => .error e
  | .ok (conds, op) =>
    match conds with
    | none => .ok ⟨1, op.out, op.err ++ ["Failed to fetch weather data"]⟩
    | some c =>
      match fm with
      | .simple => .ok ⟨0, op.out ++ [format_simple (some c)], op.err⟩
      | .minimal =>
        match format_minimal (some c) with
        | .ok s => .ok ⟨0, op.out ++ [s], op.err⟩
        | .error e => .error e
      | .detailed => .ok ⟨0, op.out ++ [format_detailed (some c)], op.err⟩
      | .json => .ok ⟨0, op.out ++ [format_json (some c)], op.err⟩

theorem exists_of_bind_ok {α β : Type} {x : Except PyErr α} {g : α → Except PyErr β} {b : β}
    (h : (x >>= g) = .ok b) : ∃ a, x = .ok a ∧ g a = .ok b := by
  cases x with
  | ok a => exact ⟨a, rfl, h⟩
  | error e => simp [exbind_err] at h

theorem pyNot_false_of_subscript_ok {j v : Json} {key : String}
    (h : subscript j key = .ok v) : pyNot j = false := by
  cases j with
  | obj fields =>
    cases fields with
    | nil => simp [subscript, objFind] at h
    | cons p rest => rfl
  | null => simp [subscript] at h
  | bool b => simp [subscript] at h
  | int n => simp [subscript] at h
  | float q => simp [subscript] at h
  | str s => simp [subscript] at h
  | arr xs => simp [subscript] at h

theorem caught_of_subscript_error {j : Json} {key : String} {e : PyErr}
    (h : subscript j key = .error e) : caught e = true := by
  cases j with
  | obj fields =>
    cases hf : objFind fields key with
    | some v => simp [subscript, hf] at h
    | none => simp [subscript, hf] at h; subst h; rfl
  | null => simp [subscript] at h; subst h; rfl
  | bool b => simp [subscript] at h; subst h; rfl
  | int n => simp [subscript] at h; subst h; rfl
  | float q => simp [subscript] at h; subst h; rfl
  | str s => simp [subscript] at h; subst h; rfl
  | arr xs => simp [subscript] at h; subst h; rfl

theorem pyNot_false_of_getTimes_ok {f t : Json} (h : getTimes f = .ok t) :
    pyNot f = false := by
  unfold getTimes at h
  obtain ⟨fc, hfc, -⟩ := exists_of_bind_ok h
  exact pyNot_false_of_subscript_ok hfc

theorem caught_of_getTimes_error {f : Json} {e : PyErr} (h : getTimes f = .error e) :
    caught e = true := by
  unfold getTimes at h
  cases h1 : subscript f "forecast" with
  | error e1 =>
    rw [h1, exbind_err] at h
    cases h
    exact caught_of_subscript_error h1
  | ok fc =>
    rw [h1, exbind_ok] at h
    cases h2 : subscript fc "tabular" with
    | error e2 =>
      rw [h2, exbind_err] at h
      cases h
      exact caught_of_subscript_error h2
    | ok tab =>
      rw [h2, exbind_ok] at h
      exact caught_of_subscript_error h

theorem get_forecast_200 (body : Json) :
    get_forecast (.response 200 body) = .ok (some body, ⟨[], []⟩) := rfl

theorem gcc_of_extract_ok {f : Json} {conds : Option Conditions}
    (hNot : pyNot f = false) (hx : extractTry f = .ok conds) :
    get_current_conditions (.response 200 f) = .ok (conds, ⟨[], []⟩) := by
  simp only [get_current_conditions, get_forecast_200, hNot, hx]
  rfl

theorem gcc_of_extract_caught {f : Json} {e : PyErr}
    (hNot : pyNot f = false) (hx : extractTry f = .error e) (hc : caught e = true) :
    get_current_conditions (.response 200 f)
      = .ok (none, ⟨[], ["Error parsing weather data: " ++ pyErrStr e]⟩) := by
  simp only [get_current_conditions, get_forecast_200, hNot, hx, hc]
  rfl

theorem bindStep {α β : Type} {x : Except PyErr α} {a : α}
    (g : α → Except PyErr β) (hx : x = Except.ok a) : (x >>= g) = g a := by
  subst hx
  rfl

theorem extractTry_of_getTimes_error {f : Json} {e : PyErr} (h : getTimes f = .error e) :
    extractTry f = .error e := by
  simp only [extractTry, h, exbind_err]

theorem extractTry_eq_of_lookups
    (f fc tab cur : Json) (rest : List Json)
    (tempD tempA temp phenD phenA weather weatherEn wsD wsA windSpeed
     wdD wdA windDir prD prA precip atA timeFrom loc : Json)
    (tq wsq pq : ℚ)
    (h1 : subscript f "forecast" = .ok fc)
    (h2 : subscript fc "tabular" = .ok tab)
    (h3 : subscript tab "time" = .ok (.arr (cur :: rest)))
    (h4 : subscript cur "temperature" = .ok tempD)
    (h5 : subscript tempD "@attributes" = .ok tempA)
    (h6 : subscript tempA "value" = .ok temp)
    (h7 : subscript cur "phenomen" = .ok phenD)
    (h8 : subscript phenD "@attributes" = .ok phenA)
    (h9 : subscript phenA "et" = .ok weather)
    (h10 : dictGet phenA "en" (Json.str "") = .ok weatherEn)
    (h11 : subscript cur "windSpeed" = .ok wsD)
    (h12 : subscript wsD "@attributes" = .ok wsA)
    (h13 : subscript wsA "mps" = .ok windSpeed)
    (h14 : subscript cur "windDirection" = .ok wdD)
    (h15 : subscript wdD "@attributes" = .ok wdA)
    (h16 : subscript wdA "name" = .ok windDir)
    (h17 : subscript cur "precipitation" = .ok prD)
    (h18 : subscript prD "@attributes" = .ok prA)
    (h19 : subscript prA "value" = .ok precip)
    (h20 : subscript cur "@attributes" = .ok atA)
    (h21 : subscript atA "from" = .ok timeFrom)
    (h22 : pyFloat temp = .ok tq)
    (h23 : pyFloat windSpeed = .ok wsq)
    (h24 : pyFloat precip = .ok pq)
    (h25 : dictGet f "location" (Json.str "Unknown") = .ok loc) :
    extractTry f = .ok (some ⟨tq, weather, weatherEn, wsq, windDir, pq, timeFrom, loc⟩) := by
  have hT : getTimes f = .ok (.arr (cur :: rest)) :=
    Eq.trans (bindStep _ h1) (Eq.trans (bindStep _ h2) h3)
  have hLen : pyLen (Json.arr (cur :: rest)) = Except.ok (rest.length + 1) := rfl
  have hIdx : pyIndex (Json.arr (cur :: rest)) 0 = Except.ok cur := rfl
  refine Eq.trans (bindStep _ hT) ?_
  refine Eq.trans (bindStep _ hLen) ?_
  refine Eq.trans (bindStep _ hIdx) ?_
  refine Eq.trans (bindStep _ h4) ?_
  refine Eq.trans (bindStep _ h5) ?_
  refine Eq.trans (bindStep _ h6) ?_
  refine Eq.trans (bindStep _ h7) ?_
  refine Eq.trans (bindStep _ h8) ?_
  refine Eq.trans (bindStep _ h9) ?_
  refine Eq.trans (bindStep _ h10) ?_
  refine Eq.trans (bindStep _ h11) ?_
  refine Eq.trans (bindStep _ h12) ?_
  refine Eq.trans (bindStep _ h13) ?_
  refine Eq.trans (bindStep _ h14) ?_
  refine Eq.trans (bindStep _ h15) ?_
  refine Eq.trans (bindStep _ h16) ?_
  refine Eq.trans (bindStep _ h17) ?_
  refine Eq.trans (bindStep _ h18) ?_
  refine Eq.trans (bindStep _ h19) ?_
  refine Eq.trans (bindStep _ h20) ?_
  refine Eq.trans (bindStep _ h21) ?_
  refine Eq.trans (bindStep _ h22) ?_
  refine Eq.trans (bindStep _ h23) ?_
  refine Eq.trans (bindStep _ h24) ?_
  refine Eq.trans (bindStep _ h25) ?_
  rfl

/-- A well-formed first time entry carrying every attribute the script reads. -/
def sampleEntry : Json := .obj [
  ("temperature", .obj [("@attributes", .obj [("value", .str "3.4")])]),
  ("phenomen", .obj [("@attributes", .obj [("et", .str "Selge"), ("en", .str "Clear")])]),
  ("windSpeed", .obj [("@attributes", .obj [("mps", .str "4.2")])]),
  ("windDirection", .obj [("@attributes", .obj [("name", .str "NW")])]),
  ("precipitation", .obj [("@attributes", .obj [("value", .str "0")])]),
  ("@attributes", .obj [("from", .str "2026-10-12T10:00:00")])]

/-- A well-formed forecast response with one time entry. -/
def sampleForecast : Json := .obj [
  ("location", .str "Toomja"),
  ("forecast", .obj [("tabular", .obj [("time", .arr [sampleEntry])])])]

/-- A response whose `forecast.tabular.time` list is empty. -/
def emptyTimesForecast : Json := .obj [
  ("forecast", .obj [("tabular", .obj [("time", .arr [])])])]

/-- A truthy response lacking the `forecast` key entirely. -/
def noPathForecast : Json := .obj [("x", .int 1)]

/-- A response whose first time entry is missing the `temperature` field. -/
def missingFieldForecast : Json := .obj [
  ("forecast", .obj [("tabular", .obj [("time", .arr [.obj [
    ("phenomen", .obj [("@attributes", .obj [("et", .str "Selge")])])]])])])]

/-- The well-formed forecast with the temperature attribute replaced by a
non-numeric string. -/
def badTempForecast : Json := .obj [
  ("location", .str "Toomja"),
  ("forecast", .obj [("tabular", .obj [("time", .arr [.obj [
    ("temperature", .obj [("@attributes", .obj [("value", .str "abc")])]),
    ("phenomen", .obj [("@attributes", .obj [("et", .str "Selge"), ("en", .str "Clear")])]),
    ("windSpeed", .obj [("@attributes", .obj [("mps", .str "4.2")])]),
    ("windDirection", .obj [("@attributes", .obj [("name", .str "NW")])]),
    ("precipitation", .obj [("@attributes", .obj [("value", .str "0")])]),
    ("@attributes", .obj [("from", .str "2026-10-12T10:00:00")])]])])])]

/-- The well-formed forecast without its top-level `location` key. -/
def noLocForecast : Json := .obj [
  ("forecast", .obj [("tabular", .obj [("time", .arr [sampleEntry])])])]

/-- C1: for every well-formed forecast response whose `forecast.tabular.time`
sequence is non-empty and whose first time entry carries all required
attributes, `get_current_conditions` returns a record whose `temperature`,
`wind_speed` and `precipitation` are the `float(...)` conversions of the
corresponding attribute values and whose `weather`, `weather_en`,
`wind_direction` and `forecast_time` are those attribute values unchanged. -/
theorem get_current_conditions_first_entry
    (f fc tab cur : Json) (rest : List Json)
    (tempD tempA temp phenD phenA weather weatherEn wsD wsA windSpeed
     wdD wdA windDir prD prA precip atA timeFrom loc : Json)
    (tq wsq pq : ℚ)
    (h1 : subscript f "forecast" = .ok fc)
    (h2 : subscript fc "tabular" = .ok tab)
    (h3 : subscript tab "time" = .ok (.arr (cur :: rest)))
    (h4 : subscript cur "temperature" = .ok tempD)
    (h5 : subscript tempD "@attributes" = .ok tempA)
    (h6 : subscript tempA "value" = .ok temp)
    (h7 : subscript cur "phenomen" = .ok phenD)
    (h8 : subscript phenD "@attributes" = .ok phenA)
    (h9 : subscript phenA "et" = .ok weather)
    (h10 : dictGet phenA "en" (Json.str "") = .ok weatherEn)
    (h11 : subscript cur "windSpeed" = .ok wsD)
    (h12 : subscript wsD "@attributes" = .ok wsA)
    (h13 : subscript wsA "mps" = .ok windSpeed)
    (h14 : subscript cur "windDirection" = .ok wdD)
    (h15 : subscript wdD "@attributes" = .ok wdA)
    (h16 : subscript wdA "name" = .ok windDir)
    (h17 : subscript cur "precipitation" = .ok prD)
    (h18 : subscript prD "@attributes" = .ok prA)
    (h19 : subscript prA "value" = .ok precip)
    (h20 : subscript cur "@attributes" = .ok atA)
    (h21 : subscript atA "from" = .ok timeFrom)
    (h22 : pyFloat temp = .ok tq)
    (h23 : pyFloat windSpeed = .ok wsq)
    (h24 : pyFloat precip = .ok pq)
    (h25 : dictGet f "location" (Json.str "Unknown") = .ok loc) :
    get_current_conditions (.response 200 f)
      = .ok (some ⟨tq, weather, weatherEn, wsq, windDir, pq, timeFrom, loc⟩, ⟨[], []⟩) :=
  gcc_of_extract_ok (pyNot_false_of_subscript_ok h1)
    (extractTry_eq_of_lookups f fc tab cur rest tempD tempA temp phenD phenA weather
      weatherEn wsD wsA windSpeed wdD wdA windDir prD prA precip atA timeFrom loc
      tq wsq pq h1 h2 h3 h4 h5 h6 h7 h8 h9 h10 h11 h12 h13 h14 h15 h16 h17 h18 h19
      h20 h21 h22 h23 h24 h25)

theorem get_current_conditions_first_entry_witness :
    get_current_conditions (.response 200 sampleForecast)
      = .ok (some ⟨17/5, .str "Selge", .str "Clear", 21/5, .str "NW", 0,
          .str "2026-10-12T10:00:00", .str "Toomja"⟩, ⟨[], []⟩) :=
  get_current_conditions_first_entry sampleForecast _ _ _ _ _ _ _ _ _ _ _ _ _ _ _ _ _ _
    _ _ _ _ _ _ _ _ rfl rfl rfl rfl rfl rfl rfl rfl rfl rfl rfl rfl rfl rfl rfl rfl
    rfl rfl rfl rfl rfl (by with_unfolding_all rfl) (by with_unfolding_all rfl)
    (by with_unfolding_all rfl) rfl

/-- C10: a missing top-level `location` key never fails extraction — for every
response whose first time entry is well-formed but which lacks a `location`
key, `get_current_conditions` still returns a record, with its `location`
field defaulted to the string `"Unknown"` by `forecast.get('location',
'Unknown')`. -/
theorem get_current_conditions_location_default
    (f fc tab cur : Json) (rest : List Json) (fields : List (String × Json))
    (tempD tempA temp phenD phenA weather weatherEn wsD wsA windSpeed
     wdD wdA windDir prD prA precip atA timeFrom : Json)
    (tq wsq pq : ℚ)
    (hf : f = Json.obj fields)
    (hNoLoc : objFind fields "location" = none)
    (h1 : subscript f "forecast" = .ok fc)
    (h2 : subscript fc "tabular" = .ok tab)
    (h3 : subscript tab "time" = .ok (.arr (cur :: rest)))
    (h4 : subscript cur "temperature" = .ok tempD)
    (h5 : subscript tempD "@attributes" = .ok tempA)
    (h6 : subscript tempA "value" = .ok temp)
    (h7 : subscript cur "phenomen" = .ok phenD)
    (h8 : subscript phenD "@attributes" = .ok phenA)
    (h9 : subscript phenA "et" = .ok weather)
    (h10 : dictGet phenA "en" (Json.str "") = .ok weatherEn)
    (h11 : subscript cur "windSpeed" = .ok wsD)
    (h12 : subscript wsD "@attributes" = .ok wsA)
    (h13 : subscript wsA "mps" = .ok windSpeed)
    (h14 : subscript cur "windDirection" = .ok wdD)
    (h15 : subscript wdD "@attributes" = .ok wdA)
    (h16 : subscript wdA "name" = .ok windDir)
    (h17 : subscript cur "precipitation" = .ok prD)
    (h18 : subscript prD "@attributes" = .ok prA)
    (h19 : subscript prA "value" = .ok precip)
    (h20 : subscript cur "@attributes" = .ok atA)
    (h21 : subscript atA "from" = .ok timeFrom)
    (h22 : pyFloat temp = .ok tq)
    (h23 : pyFloat windSpeed = .ok wsq)
    (h24 : pyFloat precip = .ok pq) :
    get_current_conditions (.response 200 f)
      = .ok (some ⟨tq, weather, weatherEn, wsq, windDir, pq, timeFrom, Json.str "Unknown"⟩, ⟨[], []⟩) := by
  have h25 : dictGet f "location" (Json.str "Unknown") = .ok (Json.str "Unknown") := by
    subst hf
    simp [dictGet, hNoLoc]
  exact gcc_of_extract_ok (pyNot_false_of_subscript_ok h1)
    (extractTry_eq_of_lookups f fc tab cur rest tempD tempA temp phenD phenA weather
      weatherEn wsD wsA windSpeed wdD wdA windDir prD prA precip atA timeFrom
      (Json.str "Unknown") tq wsq pq h1 h2 h3 h4 h5 h6 h7 h8 h9 h10 h11 h12 h13 h14
      h15 h16 h17 h18 h19 h20 h21 h22 h23 h24 h25)

theorem get_current_conditions_location_default_witness :
    get_current_conditions (.response 200 noLocForecast)
      = .ok (some ⟨17/5, .str "Selge", .str "Clear", 21/5, .str "NW", 0,
          .str "2026-10-12T10:00:00", .str "Unknown"⟩, ⟨[], []⟩) :=
  get_current_conditions_location_default noLocForecast _ _ _ _
    [("forecast", Json.obj [("tabular", Json.obj [("time", Json.arr [sampleEntry])])])]
    _ _ _ _ _ _ _ _ _ _ _ _ _ _ _ _ _ _ _ _ _
    rfl rfl rfl rfl rfl rfl rfl rfl rfl rfl rfl rfl rfl rfl rfl rfl rfl rfl rfl rfl
    rfl rfl rfl (by with_unfolding_all rfl)
    (by with_unfolding_all rfl) (by with_unfolding_all rfl)

/-- C2: a falsy decoded response, an empty `forecast.tabular.time` sequence, a
response lacking the `forecast.tabular.time` path, and a first time entry
missing an expected field all make `get_current_conditions` return `None`
without raising; in the missing-path and missing-field cases (all of which
raise one of the three caught exception classes inside the `try:` block) a
diagnostic line is written to stderr. -/
theorem get_current_conditions_absent_on_missing (f : Json) :
    (pyNot f = true → get_current_conditions (.response 200 f) = .ok (none, ⟨[], []⟩))
    ∧ (getTimes f = .ok (.arr []) →
        get_current_conditions (.response 200 f) = .ok (none, ⟨[], []⟩))
    ∧ (∀ e, pyNot f = false → getTimes f = .error e →
        get_current_conditions (.response 200 f)
          = .ok (none, ⟨[], ["Error parsing weather data: " ++ pyErrStr e]⟩))
    ∧ (∀ e, pyNot f = false → extractTry f = .error e → caught e = true →
        get_current_conditions (.response 200 f)
          = .ok (none, ⟨[], ["Error parsing weather data: " ++ pyErrStr e]⟩)) := by
  refine ⟨?_, ?_, ?_, ?_⟩
  · intro h
    simp [get_current_conditions, get_forecast_200, h]
  · intro h
    have hx : extractTry f = .ok none := by
      simp only [extractTry, h, exbind_ok]
      rfl
    exact gcc_of_extract_ok (pyNot_false_of_getTimes_ok h) hx
  · intro e hNot h
    exact gcc_of_extract_caught hNot (extractTry_of_getTimes_error h) (caught_of_getTimes_error h)
  · intro e hNot hx hc
    exact gcc_of_extract_caught hNot hx hc

theorem get_current_conditions_absent_on_missing_witness :
    get_current_conditions (.response 200 .null) = .ok (none, ⟨[], []⟩)
    ∧ get_current_conditions (.response 200 emptyTimesForecast) = .ok (none, ⟨[], []⟩)
    ∧ get_current_conditions (.response 200 noPathForecast)
        = .ok (none, ⟨[], ["Error parsing weather data: \x27forecast\x27"]⟩)
    ∧ get_current_conditions (.response 200 missingFieldForecast)
        = .ok (none, ⟨[], ["Error parsing weather data: \x27temperature\x27"]⟩) :=
  ⟨(get_current_conditions_absent_on_missing .null).1 rfl,
   (get_current_conditions_absent_on_missing emptyTimesForecast).2.1 rfl,
   (get_current_conditions_absent_on_missing noPathForecast).2.2.1
     (.keyError "forecast") rfl rfl,
   (get_current_conditions_absent_on_missing missingFieldForecast).2.2.2
     (.keyError "temperature") rfl (by with_unfolding_all rfl) rfl⟩

/-- C9: the soft-failure handler catches only `KeyError`, `IndexError` and
`TypeError`; on a response whose first time entry has every required key but a
non-numeric temperature string, the `float(...)` conversion raises a
`ValueError` that escapes `get_current_conditions` instead of being converted
into the absent result. -/
theorem value_error_escapes_extraction :
    caught (.valueError "could not convert string to float: \x27abc\x27") = false
    ∧ get_current_conditions (.response 200 badTempForecast)
        = .error (.valueError "could not convert string to float: \x27abc\x27") :=
  ⟨rfl, by with_unfolding_all rfl⟩

/-- C3 counterexample: an empty bare JSON list is returned unchanged, so the
result of the search-location normalization has length 0, not length ≥ 1. -/
theorem search_location_empty_list_refutes :
    (search_location_normalize (Json.arr [])).length = 0
    ∧ ¬ 1 ≤ (search_location_normalize (Json.arr [])).length :=
  ⟨rfl, by decide⟩

/-- C3 (amended): the normalization returns a bare list unchanged (its length
equals the input's, possibly 0), returns the wrapped list of a dict with a
`data` key holding a list (again possibly empty), wraps a dict whose `data`
value is not a list — and any dict without a `data` key — as the singleton
list of that dict, and returns the empty list for every other JSON shape
instead of raising. -/
theorem search_location_shapes (xs : List Json) (fields : List (String × Json))
    (q : ℚ) (n : ℤ) (b : Bool) (s : String) :
    search_location_normalize (.arr xs) = xs
    ∧ (∀ ys, objFind fields "data" = some (.arr ys) →
        search_location_normalize (.obj fields) = ys)
    ∧ (∀ v, objFind fields "data" = some v → (∀ zs, v ≠ .arr zs) →
        search_location_normalize (.obj fields) = [.obj fields])
    ∧ (objFind fields "data" = none →
        search_location_normalize (.obj fields) = [.obj fields])
    ∧ search_location_normalize .null = []
    ∧ search_location_normalize (.float q) = []
    ∧ search_location_normalize (.int n) = []
    ∧ search_location_normalize (.bool b) = []
    ∧ search_location_normalize (.str s) = [] := by
  refine ⟨rfl, ?_, ?_, ?_, rfl, rfl, rfl, rfl, rfl⟩
  · intro ys h
    simp [search_location_normalize, h]
  · intro v h hv
    cases v with
    | arr zs => exact absurd rfl (hv zs)
    | null => simp [search_location_normalize, h]
    | bool b2 => simp [search_location_normalize, h]
    | int n2 => simp [search_location_normalize, h]
    | float q2 => simp [search_location_normalize, h]
    | str s2 => simp [search_location_normalize, h]
    | obj fs2 => simp [search_location_normalize, h]
  · intro h
    simp [search_location_normalize, h]

theorem search_location_shapes_witness :
    search_location_normalize (.arr [.int 5]) = [.int 5]
    ∧ search_location_normalize (.obj [("data", .arr [.int 2])]) = [.int 2]
    ∧ search_location_normalize (.obj [("data", .int 7)]) = [.obj [("data", .int 7)]]
    ∧ search_location_normalize (.obj [("name", .str "Toomja")])
        = [.obj [("name", .str "Toomja")]] :=
  ⟨(search_location_shapes [.int 5] [] 0 0 true "x").1,
   (search_location_shapes [] [("data", .arr [.int 2])] 0 0 true "x").2.1 [.int 2] rfl,
   (search_location_shapes [] [("data", .int 7)] 0 0 true "x").2.2.1 (.int 7) rfl
     (fun _zs h => Json.noConfusion h),
   (search_location_shapes [] [("name", .str "Toomja")] 0 0 true "x").2.2.2.1 rfl⟩

/-- C4: on a non-success HTTP status (400–599) `get_forecast` returns `None`
after printing its diagnostic lines; but on a transport error raised by
`session.get` itself, the `except` handler evaluates the never-assigned local
`response`, so an `UnboundLocalError` escapes `get_forecast` instead of the
documented `None`.  On success the decoded body is returned. -/
theorem get_forecast_failure_behavior :
    get_forecast (.transportError "connection timed out")
      = .error (.unboundLocalError "response")
    ∧ get_forecast (.response 404 .null)
        = .ok (none, ⟨["Error fetching forecast: 404 Client Error",
            "Response status: N/A", "Response text: N/A"], []⟩)
    ∧ get_forecast (.response 500 .null)
        = .ok (none, ⟨["Error fetching forecast: 500 Server Error",
            "Response status: N/A", "Response text: N/A"], []⟩)
    ∧ get_forecast (.response 200 (.obj [("a", .int 1)]))
        = .ok (some (.obj [("a", .int 1)]), ⟨[], []⟩) :=
  ⟨rfl, rfl, rfl, rfl⟩

/-- C5 counterexample: the CLI's `json` output is `json.dumps(conditions)`
directly; applied to the absent result it yields `"null"`, which is neither
of the fixed placeholder strings. -/
theorem format_json_none_not_placeholder :
    format_json none = "null"
    ∧ "null" ≠ "Weather data unavailable"
    ∧ "null" ≠ "N/A" :=
  ⟨rfl, by decide, by decide⟩

/-- C5 (amended): `format_simple` and `format_detailed` map the absent result
to `"Weather data unavailable"` and `format_minimal` maps it to `"N/A"`; the
`json` format (inline `json.dumps` in `main`, never reached with an absent
result) serializes it as `"null"` rather than a placeholder. -/
theorem absent_placeholder_strings :
    format_simple none = "Weather data unavailable"
    ∧ format_minimal none = .ok "N/A"
    ∧ format_detailed none = "Weather data unavailable"
    ∧ format_json none = "null" :=
  ⟨rfl, rfl, rfl, rfl⟩

theorem q3456_eq : (3.456 : ℚ) = ⟨432, 125, by decide, by decide⟩ := by
  with_unfolding_all rfl

theorem q42_eq : (4.2 : ℚ) = ⟨21, 5, by decide, by decide⟩ := by
  with_unfolding_all rfl

set_option maxRecDepth 20000 in
/-- C6: on conditions with temperature 3.456 and weather label
`"Vahelduv pilvisus"`, `format_minimal` rounds the temperature to the nearest
integer and applies the two fixed substring abbreviations, producing exactly
`"3° Vahel. pilv"` (whatever the remaining fields hold). -/
theorem format_minimal_example (weatherEn windDir timeFrom loc : Json) (pq : ℚ) :
    format_minimal (some ⟨3.456, .str "Vahelduv pilvisus", weatherEn, 4.2,
        windDir, pq, timeFrom, loc⟩)
      = .ok "3° Vahel. pilv" := by
  rw [q3456_eq, q42_eq]
  simp only [format_minimal]
  rfl

theorem format_minimal_example_witness :
    format_minimal (some ⟨3.456, .str "Vahelduv pilvisus", .str "", 4.2,
        .str "", 0, .str "", .str ""⟩)
      = .ok "3° Vahel. pilv" :=
  format_minimal_example (.str "") (.str "") (.str "") (.str "") 0

set_option maxRecDepth 20000 in
/-- C7: on conditions with temperature 3.456, weather `"Vahelduv pilvisus"`,
wind speed 4.2 and wind direction `"NW"`, `format_simple` renders the
temperature to one decimal place and the wind speed as `str()` shows it,
producing exactly `"3.5°C • Vahelduv pilvisus • Tuul 4.2 m/s"`. -/
theorem format_simple_example (weatherEn timeFrom loc : Json) (pq : ℚ) :
    format_simple (some ⟨3.456, .str "Vahelduv pilvisus", weatherEn, 4.2,
        .str "NW", pq, timeFrom, loc⟩)
      = "3.5°C • Vahelduv pilvisus • Tuul 4.2 m/s" := by
  rw [q3456_eq, q42_eq]
  simp only [format_simple]
  rfl

theorem format_simple_example_witness :
    format_simple (some ⟨3.456, .str "Vahelduv pilvisus", .str "", 4.2,
        .str "NW", 0, .str "", .str ""⟩)
      = "3.5°C • Vahelduv pilvisus • Tuul 4.2 m/s" :=
  format_simple_example (.str "") (.str "") (.str "") 0

/-- A response whose first time entry is fully populated but whose weather
phenomenon label is a JSON number instead of a string. -/
def oddWeatherForecast : Json := .obj [
  ("location", .str "X"),
  ("forecast", .obj [("tabular", .obj [("time", .arr [.obj [
    ("temperature", .obj [("@attributes", .obj [("value", .str "1.0")])]),
    ("phenomen", .obj [("@attributes", .obj [("et", .int 5)])]),
    ("windSpeed", .obj [("@attributes", .obj [("mps", .str "2")])]),
    ("windDirection", .obj [("@attributes", .obj [("name", .str "N")])]),
    ("precipitation", .obj [("@attributes", .obj [("value", .str "0")])]),
    ("@attributes", .obj [("from", .str "t0")])]])])])]

set_option maxRecDepth 20000 in
/-- C8 counterexample: on a response whose extraction succeeds but whose
weather label is not a string, the CLI's `minimal` format calls `.replace` on
a non-string, so `main` raises `AttributeError` and prints nothing to stdout
instead of printing the formatted result. -/
theorem minimal_format_crash :
    get_current_conditions (.response 200 oddWeatherForecast)
      = .ok (some ⟨1, .int 5, .str "", 2, .str "N", 0, .str "t0", .str "X"⟩, ⟨[], []⟩)
    ∧ runMain (.response 200 oddWeatherForecast) .minimal
        = .error (.attributeError "\x27int\x27 object has no attribute \x27replace\x27") :=
  ⟨by with_unfolding_all rfl, by with_unfolding_all rfl⟩

/-- C8 (amended): whenever `get_current_conditions` returns the absent result,
`main` exits with status 1 and prints its error message to stderr; whenever
extraction succeeds, `main` exits 0 and prints the output of the selected
`--format` to stdout — unconditionally for `simple`, `detailed` and `json`,
and for `minimal` whenever `format_minimal` itself succeeds (it raises
`AttributeError` on a non-string weather label). -/
theorem runMain_spec (o : HttpOutcome) (fm : OutputFormat) :
    (∀ op, get_current_conditions o = .ok (none, op) →
        runMain o fm = .ok ⟨1, op.out, op.err ++ ["Failed to fetch weather data"]⟩)
    ∧ (∀ c op, get_current_conditions o = .ok (some c, op) →
        (fm = .simple → runMain o fm = .ok ⟨0, op.out ++ [format_simple (some c)], op.err⟩)
        ∧ (fm = .detailed → runMain o fm = .ok ⟨0, op.out ++ [format_detailed (some c)], op.err⟩)
        ∧ (fm = .json → runMain o fm = .ok ⟨0, op.out ++ [format_json (some c)], op.err⟩)
        ∧ (∀ s, fm = .minimal → format_minimal (some c) = .ok s →
            runMain o fm = .ok ⟨0, op.out ++ [s], op.err⟩)) := by
  constructor
  · intro op h
    simp [runMain, h]
  · intro c op h
    refine ⟨?_, ?_, ?_, ?_⟩
    · intro hfm
      subst hfm
      simp [runMain, h]
    · intro hfm
      subst hfm
      simp [runMain, h]
    · intro hfm
      subst hfm
      simp [runMain, h]
    · intro s hfm hs
      subst hfm
      simp [runMain, h, hs]

/-- The conditions record extracted from `sampleForecast`, with its rationals
in explicit normalized form. -/
def sampleConditions : Conditions :=
  ⟨⟨17, 5, by decide, by decide⟩, .str "Selge", .str "Clear",
   ⟨21, 5, by decide, by decide⟩, .str "NW", 0, .str "2026-10-12T10:00:00", .str "Toomja"⟩

set_option maxRecDepth 20000 in
theorem runMain_spec_witness :
    runMain (.response 404 .null) .simple
      = .ok ⟨1, ["Error fetching forecast: 404 Client Error", "Response status: N/A",
          "Response text: N/A"], ["Failed to fetch weather data"]⟩
    ∧ runMain (.response 200 sampleForecast) .simple
        = .ok ⟨0, ["3.4°C • Selge • Tuul 4.2 m/s"], []⟩
    ∧ runMain (.response 200 sampleForecast) .minimal
        = .ok ⟨0, ["3° Selge"], []⟩ :=
  ⟨(runMain_spec (.response 404 .null) .simple).1
     ⟨["Error fetching forecast: 404 Client Error", "Response status: N/A",
       "Response text: N/A"], []⟩ rfl,
   Eq.trans
     (((runMain_spec (.response 200 sampleForecast) .simple).2 sampleConditions
        ⟨[], []⟩ (by with_unfolding_all rfl)).1 rfl)
     (by simp only [sampleConditions, format_simple]; rfl),
   ((runMain_spec (.response 200 sampleForecast) .minimal).2 sampleConditions
      ⟨[], []⟩ (by with_unfolding_all rfl)).2.2.2 "3° Selge" rfl
      (by simp only [sampleConditions, format_minimal]; rfl)⟩
